import Mathlib

/-!
Verification of the `hazae41/result` TypeScript library against its
natural-language specification, via a shallow embedding in Lean 4.

The library's duck-typed classes `Ok<T>` / `Err<E>` (forming the union type
`Result<T, E>`) and `Some<T>` / `None` (forming `Option<T>`) are embedded as
two-variant inductive types whose constructors carry the class names.  Each
class method becomes one match arm of the corresponding function on the sum
type; the body of each arm is a direct translation of that class's method
body.

JavaScript effects are made explicit:
- generator laziness (`Result.iterate`) is modelled by returning the
  unconsumed suffix of the source sequence alongside the yielded values;
- thrown exceptions become `Except` values carrying an explicit payload;
- the `unthrow` ref-cell slot becomes explicit state passing;
- promises become an inductive wrapper distinguishing immediate from
  deferred values;
- the leak-detector timer becomes a boolean "pending" flag on the instance;
- reference identity (needed for "returns `this` unchanged" claims) is
  modelled with an allocation counter assigning a fresh id to every `new`.
-/

namespace HazaeResult

/-- Embeds the union type `Result<T, E> = Ok<T> | Err<E>` from
`src/mods/result/result.ts`.  The two duck-typed classes become the two
constructors; `inner` is the single immutable field of each class. -/
inductive Result (α ε : Type) where
  | Ok (inner : α)
  | Err (inner : ε)
deriving DecidableEq, Repr

/-- Embeds the union type `Option<T> = Some<T> | None` from
`src/mods/option/option/mod.ts`. -/
inductive Opt (α : Type) where
  | Some (inner : α)
  | None
deriving DecidableEq, Repr

/-- A JavaScript promise-or-value (`Promiseable`/`Awaitable`): either a plain
value or a promise that resolves to the value.  An `async` method always
returns the `later` form; awaiting either form produces the value. -/
inductive Prom (γ : Type) where
  | now (val : γ)
  | later (val : γ)
deriving DecidableEq, Repr

/-- `await`: resolve a promise-or-value to its value. -/
def Prom.await : Prom γ → γ
  | .now v => v
  | .later v => v

namespace Result

variable {α β ε η : Type}

/-- Embeds `Ok.isOk` (returns `true`) and `Err.isOk` (returns `false`). -/
def isOk : Result α ε → Bool
  | .Ok _ => true
  | .Err _ => false

/-- Embeds `Ok.isErr` (returns `false`) and `Err.isErr` (returns `true`). -/
def isErr : Result α ε → Bool
  | .Ok _ => false
  | .Err _ => true

/-- Embeds `Ok.get` (`return this.inner`): defined on the `Ok` variant only,
returning `none` on `Err` where the source would raise. -/
def get? : Result α ε → Option α
  | .Ok v => some v
  | .Err _ => none

/-- Embeds `Ok.set` (`return new Ok(inner)`) and `Err.set` (`return this`):
replace the success value on `Ok`, keep the same `Err` on `Err`. -/
def set : Result α ε → β → Result β ε
  | .Ok _, b => .Ok b
  | .Err e, _ => .Err e

/-- Embeds the generator `Result.iterate` from `src/mods/result/result.ts`:
for each source Result in order, yield the inner value if `Ok`, otherwise
return that `Err` as the terminal value; when the source is exhausted the
terminal value is `Ok.void()`.  The third component is the suffix of the
source the generator never pulled (it stops pulling right after the first
`Err`), making the short-circuit property explicit. -/
def iterate : List (Result α ε) → List α × Result Unit ε × List (Result α ε)
  | [] => ([], .Ok (), [])
  | .Ok v :: rest =>
    let r := iterate rest
    (v :: r.1, r.2.1, r.2.2)
  | .Err e :: rest => ([], .Err e, rest)

/-- Embeds `Result.collect` from `src/mods/result/result.ts`: drain the
iterator into an array, then `result.value.set(array)` — `Ok.void().set(a)`
is `Ok(a)`, and `err.set(a)` is the same `Err`. -/
def collect (yielded : List α) (terminal : Result Unit ε) : Result (List α) ε :=
  terminal.set yielded

/-- Embeds `Result.all` from `src/mods/result/result.ts`:
`collect(iterate(iterable))`. -/
def all (l : List (Result α ε)) : Result (List α) ε :=
  collect (iterate l).1 (iterate l).2.1

/-- Embeds `Ok.mapSync` (`return new Ok(okMapper(this.inner))`) and
`Err.mapSync` (`return this`). -/
def mapSync : Result α ε → (α → β) → Result β ε
  | .Ok v, f => .Ok (f v)
  | .Err e, _ => .Err e

/-- Embeds the suspending `Ok.map` (an `async` method: wraps
`new Ok(await okMapper(this.inner))` in a promise) and `Err.map` (a plain
synchronous method returning `this`, hence not wrapped in a promise). -/
def map (r : Result α ε) (okMapper : α → Prom β) : Prom (Result β ε) :=
  match r with
  | .Ok v => .later (.Ok (okMapper v).await)
  | .Err e => .now (.Err e)

/-- Embeds `Ok.andThenSync` (`return okMapper(this.inner)`) and
`Err.andThenSync` (`return this`). -/
def andThenSync : Result α ε → (α → Result β ε) → Result β ε
  | .Ok v, f => f v
  | .Err e, _ => .Err e

/-- Embeds the suspending `Ok.andThen` (an `async` method returning
`await okMapper(this.inner)`) and `Err.andThen` (a plain synchronous method
returning `this`). -/
def andThen (r : Result α ε) (okMapper : α → Prom (Result β ε)) : Prom (Result β ε) :=
  match r with
  | .Ok v => .later (okMapper v).await
  | .Err e => .now (.Err e)

/-- Embeds `Ok.orElseSync` (`return this`) and `Err.orElseSync`
(`return errMapper(this.inner)`). -/
def orElseSync : Result α ε → (ε → Result α ε) → Result α ε
  | .Ok v, _ => .Ok v
  | .Err e, f => f e

/-- Embeds the suspending `Ok.orElse` (an `async` method returning `this`,
hence a promise of `this`) and `Err.orElse` (an `async` method returning
`await errMapper(this.inner)`). -/
def orElse (r : Result α ε) (errMapper : ε → Prom (Result α ε)) : Prom (Result α ε) :=
  match r with
  | .Ok v => .later (.Ok v)
  | .Err e => .later (errMapper e).await

/-- Embeds `Ok.getOrElseSync` (`return this.inner`) and `Err.getOrElseSync`
(`return errMapper(this.inner)`). -/
def getOrElseSync : Result α ε → (ε → α) → α
  | .Ok v, _ => v
  | .Err e, f => f e

/-- Embeds `Ok.getOrElse` (a plain synchronous method returning `this.inner`
in `ok/mod.ts`) and `Err.getOrElse` (an `async` method returning
`await errMapper(this.inner)`). -/
def getOrElse (r : Result α ε) (errMapper : ε → Prom α) : Prom α :=
  match r with
  | .Ok v => .now v
  | .Err e => .later (errMapper e).await

/-- Embeds `Ok.ok` (`return new Some(this.inner)`) and `Err.ok`
(`return new None()`): the `Result<T,E> → Option<T>` conversion. -/
def ok : Result α ε → Opt α
  | .Ok v => .Some v
  | .Err _ => .None

/-- Embeds `Ok.err` (`return new None()`) and `Err.err`
(`return new Some(this.inner)`): the `Result<T,E> → Option<E>` conversion. -/
def err : Result α ε → Opt ε
  | .Ok _ => .None
  | .Err e => .Some e

end Result

namespace Opt

variable {α ε : Type}

/-- Embeds `Some.okOr` (`return new Ok(this.inner)`) and `None.okOr`
(`return new Err(error)`): the `Option<T> → Result<T,E>` conversion. -/
def okOr : Opt α → ε → Result α ε
  | .Some v, _ => .Ok v
  | .None, e => .Err e

/-- Embeds `Some.isSome` (returns `true`) and `None.isSome`
(returns `false`). -/
def isSome : Opt α → Bool
  | .Some _ => true
  | .None => false

end Opt

/-- A JavaScript value, for the loose-equality behavior of `Option.wrap`.
`num`/`nan`/`str`/`boolean` cover the primitive falsy candidates; `obj`
stands for any object reference. -/
inductive JSVal where
  | null
  | undefined
  | num (n : Int)
  | nan
  | str (s : String)
  | boolean (b : Bool)
  | obj (id : Nat)
deriving DecidableEq, Repr

/-- JavaScript loose equality against null (`inner == null`): true exactly
for `null` and `undefined`, false for every other value (including all falsy
primitives). -/
def JSVal.looseEqNull : JSVal → Bool
  | .null => true
  | .undefined => true
  | _ => false

/-- Embeds `Option.wrap` from `src/mods/option/option/mod.ts`:
`if (inner == null) return new None(); return new Some(inner)`. -/
def Opt.wrap (inner : JSVal) : Opt JSVal :=
  if inner.looseEqNull then .None else .Some inner

/-! ### Instances with identity

The "returns `this` unchanged" / "freshly constructed instance" clauses are
about reference identity, so variant instances are paired with an allocation
id.  `σ : Nat` is the allocation counter: every `new` consumes the current
counter value as the new instance's id. -/

/-- A `Result` class instance: its allocation id plus its tag and inner
value. -/
structure RInst (α ε : Type) where
  id : Nat
  val : Result α ε
deriving DecidableEq, Repr

/-- An `Option` class instance: its allocation id plus its tag and inner
value. -/
structure OInst (α : Type) where
  id : Nat
  val : Opt α
deriving DecidableEq, Repr

/-- `new Ok(...)` / `new Err(...)`: allocate a fresh Result instance. -/
def allocR (v : Result α ε) (σ : Nat) : RInst α ε × Nat :=
  (⟨σ, v⟩, σ + 1)

/-- `new Some(...)` / `new None()`: allocate a fresh Option instance. -/
def allocO (v : Opt α) (σ : Nat) : OInst α × Nat :=
  (⟨σ, v⟩, σ + 1)

namespace RInst

variable {α β ε : Type}

/-- Instance-level `mapSync`: `Ok.mapSync` allocates `new Ok(f(this.inner))`,
`Err.mapSync` returns `this` (same id, no allocation). -/
def mapSync (i : RInst α ε) (f : α → β) (σ : Nat) : RInst β ε × Nat :=
  match i.val with
  | .Ok v => allocR (.Ok (f v)) σ
  | .Err e => (⟨i.id, .Err e⟩, σ)

/-- Instance-level suspending `map`: `Ok.map` is `async` and allocates
`new Ok(await f(this.inner))`; `Err.map` is synchronous and returns `this`. -/
def map (i : RInst α ε) (f : α → Prom β) (σ : Nat) : Prom (RInst β ε) × Nat :=
  match i.val with
  | .Ok v =>
    let a := allocR (.Ok (f v).await) σ
    (.later a.1, a.2)
  | .Err e => (.now ⟨i.id, .Err e⟩, σ)

/-- Instance-level `mapErrSync`: `Ok.mapErrSync` returns `this`,
`Err.mapErrSync` allocates `new Err(g(this.inner))`. -/
def mapErrSync (i : RInst α ε) (g : ε → η) (σ : Nat) : RInst α η × Nat :=
  match i.val with
  | .Ok v => (⟨i.id, .Ok v⟩, σ)
  | .Err e => allocR (.Err (g e)) σ

/-- Instance-level `set`: `Ok.set` allocates `new Ok(inner)`, `Err.set`
returns `this`. -/
def set (i : RInst α ε) (b : β) (σ : Nat) : RInst β ε × Nat :=
  match i.val with
  | .Ok _ => allocR (.Ok b) σ
  | .Err e => (⟨i.id, .Err e⟩, σ)

/-- Instance-level `setErr`: `Ok.setErr` returns `this`, `Err.setErr`
allocates `new Err(inner)`. -/
def setErr (i : RInst α ε) (e' : η) (σ : Nat) : RInst α η × Nat :=
  match i.val with
  | .Ok v => (⟨i.id, .Ok v⟩, σ)
  | .Err _ => allocR (.Err e') σ

/-- Instance-level `clear`: `Ok.clear` returns `Ok.void()` (a fresh
allocation), `Err.clear` returns `this`. -/
def clear (i : RInst α ε) (σ : Nat) : RInst Unit ε × Nat :=
  match i.val with
  | .Ok _ => allocR (.Ok ()) σ
  | .Err e => (⟨i.id, .Err e⟩, σ)

/-- Instance-level `clearErr`: `Ok.clearErr` returns `this`, `Err.clearErr`
returns `Err.void()` (a fresh allocation). -/
def clearErr (i : RInst α ε) (σ : Nat) : RInst α Unit × Nat :=
  match i.val with
  | .Ok v => (⟨i.id, .Ok v⟩, σ)
  | .Err _ => allocR (.Err ()) σ

/-- Instance-level `ok()` conversion: `Ok.ok` allocates
`new Some(this.inner)`, `Err.ok` allocates `new None()`. -/
def okConv (i : RInst α ε) (σ : Nat) : OInst α × Nat :=
  match i.val with
  | .Ok v => allocO (.Some v) σ
  | .Err _ => allocO .None σ

/-- Instance-level `err()` conversion: `Ok.err` allocates `new None()`,
`Err.err` allocates `new Some(this.inner)`. -/
def errConv (i : RInst α ε) (σ : Nat) : OInst ε × Nat :=
  match i.val with
  | .Ok _ => allocO .None σ
  | .Err e => allocO (.Some e) σ

end RInst

namespace OInst

variable {α β ε : Type}

/-- Instance-level `mapSync`: `Some.mapSync` allocates
`new Some(f(this.inner))`, `None.mapSync` returns `this`. -/
def mapSync (i : OInst α) (f : α → β) (σ : Nat) : OInst β × Nat :=
  match i.val with
  | .Some v => allocO (.Some (f v)) σ
  | .None => (⟨i.id, .None⟩, σ)

/-- Instance-level `filterSync`: `Some.filterSync` returns `this` when the
predicate holds and allocates `new None()` otherwise; `None.filterSync`
returns `this`. -/
def filterSync (i : OInst α) (p : α → Bool) (σ : Nat) : OInst α × Nat :=
  match i.val with
  | .Some v => if p v then (i, σ) else allocO .None σ
  | .None => (⟨i.id, .None⟩, σ)

/-- Instance-level `okOr`: `Some.okOr` allocates `new Ok(this.inner)`,
`None.okOr` allocates `new Err(error)`. -/
def okOr (i : OInst α) (e : ε) (σ : Nat) : RInst α ε × Nat :=
  match i.val with
  | .Some v => allocR (.Ok v) σ
  | .None => allocR (.Err e) σ

end OInst

/-! ### The early-return mechanism -/

/-- The payload carried through the exception channel by a `throw`
statement: either a variant instance thrown as-is (`Err.throw` raises
`this`), or a fresh `Panic` error with a message. -/
inductive Raised (α ε : Type) where
  | instRes (i : RInst α ε)
  | panic (msg : String)
deriving DecidableEq, Repr

/-- Embeds `Err.throw` from `src/mods/result/err/mod.ts` (lines 202-205):
`thrower(this); throw this`.  The thrower is a state transformer fed the
`Err` instance itself; the result is the state after the thrower ran plus
the raised payload — there is no normal-return component because the method
never returns normally (its TS return type is `never`). -/
def Err.throw (i : RInst α ε) (thrower : RInst α ε → σ → σ) (s : σ) :
    σ × Raised α ε :=
  (thrower i s, .instRes i)

/-- Embeds the historical `Err.throw` variant from `src/unnamed/part_002`
(lines 218-222): `thrower(this); throw new Panic("Thrown result was
try-catched")`.  The thrower still receives the `Err` instance itself, but
the raised payload is a fresh `Panic`, not the instance. -/
def Err.throwPart002 (i : RInst α ε) (thrower : RInst α ε → σ → σ) (s : σ) :
    σ × Raised α ε :=
  (thrower i s, .panic "Thrown result was try-catched")

/-- Embeds `Result.unthrowSync` from `src/mods/result/result.ts` (lines
103-113).  The `ref` slot (`let ref: Err | undefined`) becomes explicit
state threaded through the callback: the callback receives the initial slot
contents (`none` — each invocation owns a fresh slot; the thrower it is
given writes an `Err`'s value into that slot) and produces its outcome (a
normal return of a Result, or a raised exception of arbitrary type `ξ`)
together with the final slot contents.  On a raise, the recorded `Err` is
returned if the slot was populated, otherwise the exception is re-raised. -/
def Result.unthrowSync (cb : Option ε → Except ξ (Result α ε) × Option ε) :
    Except ξ (Result α ε) :=
  match cb none with
  | (.ok r, _) => .ok r
  | (.error _ex, some e) => .ok (.Err e)
  | (.error ex, none) => .error ex

/-- Embeds the suspending `Result.unthrow` from `src/mods/result/result.ts`
(lines 84-94): identical to `unthrowSync` except that it is an `async`
function, so its result is wrapped in a promise and the callback's own
suspension is awaited before the guard runs. -/
def Result.unthrow (cb : Option ε → Except ξ (Result α ε) × Option ε) :
    Prom (Except ξ (Result α ε)) :=
  .later (match cb none with
    | (.ok r, _) => .ok r
    | (.error _ex, some e) => .ok (.Err e)
    | (.error ex, none) => .error ex)

/-! ### The leak detector (debug-only diagnostic)

From the leak-detector revision of the `Ok` class (`src/mods/result/ok.ts`,
second document, lines 282-814): the constructor schedules a
`Panic("Unhandled", { cause: this })` timer when `Result.debug` is set, and
`ignore()` cancels it.  The `#timeout` slot is modelled as a boolean
`pending` flag on the instance; each method is represented by its effect on
that flag — `pending` becomes `false` exactly when the method's body runs
`this.ignore()`. -/

/-- An `Ok` instance of the leak-detector revision: inner value plus whether
an uncancelled `Unhandled` timer is pending. -/
structure OkL (α : Type) where
  inner : α
  pending : Bool
deriving DecidableEq, Repr

/-- The constructor (ok.ts lines 292-299): under the debug flag a fresh
instance has a pending timer, otherwise none is ever scheduled. -/
def OkL.make (debug : Bool) (a : α) : OkL α :=
  ⟨a, debug⟩

/-- `Ok.ignore` (ok.ts lines 325-333): `clearTimeout` and drop the handle. -/
def OkL.ignore (o : OkL α) : OkL α :=
  ⟨o.inner, false⟩

/-- The methods of the leak-detector revision of `Ok` (ok.ts lines 282-814),
named as in the source. -/
inductive LOp where
  | isOk | isOkAnd | isOkAndSync | isErr | isErrAnd | isErrAndSync
  | get | okConv | errConv | iter | split
  | contains | containsErr
  | throwOp | expect | expectErr
  | unwrap | unwrapErr | unwrapOr | unwrapOrElse | unwrapOrElseSync
  | awaitOp | awaitErr | awaitAll
  | clear | clearErr
  | inspect | inspectSync | inspectErr | inspectErrSync
  | set | setErr
  | map | mapSync | mapErr | mapErrSync
  | mapOr | mapOrSync | mapOrElse | mapOrElseSync
  | andOp | andThen | andThenSync
  | orOp | orElse | orElseSync
  | flatten
deriving DecidableEq, Repr

/-- Each method's effect on the `#timeout` slot, read off the method bodies
of ok.ts lines 282-814: the arms listing `o.ignore` are exactly the methods
whose body runs `this.ignore()`; every other body leaves the slot alone. -/
def OkL.step (op : LOp) (o : OkL α) : OkL α :=
  match op with
  | .get => o.ignore
  | .okConv => o.ignore
  | .errConv => o.ignore
  | .iter => o.ignore
  | .split => o.ignore
  | .throwOp => o.ignore
  | .expect => o.ignore
  | .expectErr => o.ignore
  | .unwrap => o.ignore
  | .unwrapErr => o.ignore
  | .unwrapOr => o.ignore
  | .unwrapOrElse => o.ignore
  | .unwrapOrElseSync => o.ignore
  | .clear => o.ignore
  | .map => o.ignore
  | .mapSync => o.ignore
  | .mapOr => o.ignore
  | .mapOrSync => o.ignore
  | .mapOrElse => o.ignore
  | .mapOrElseSync => o.ignore
  | .andOp => o.ignore
  | .andThen => o.ignore
  | .andThenSync => o.ignore
  | .isOk => o
  | .isOkAnd => o
  | .isOkAndSync => o
  | .isErr => o
  | .isErrAnd => o
  | .isErrAndSync => o
  | .contains => o
  | .containsErr => o
  | .awaitOp => o
  | .awaitErr => o
  | .awaitAll => o
  | .clearErr => o
  | .inspect => o
  | .inspectSync => o
  | .inspectErr => o
  | .inspectErrSync => o
  | .set => o
  | .setErr => o
  | .mapErr => o
  | .mapErrSync => o
  | .orOp => o
  | .orElse => o
  | .orElseSync => o
  | .flatten => o

/-- The operations the claim's "consumes the instance in a way that implies
the caller has acknowledged its tag" set names expressly: `get`, `unwrap`,
`ok`, `err`, `map`, `inspect` (and their obvious twins). -/
def LOp.acknowledged : LOp → Bool
  | .get | .unwrap | .unwrapErr | .okConv | .errConv
  | .map | .mapSync | .inspect | .inspectSync => true
  | _ => false

/-- The operations whose ok.ts body actually runs `this.ignore()`. -/
def LOp.cancels : LOp → Bool
  | .get | .okConv | .errConv | .iter | .split | .throwOp
  | .expect | .expectErr | .unwrap | .unwrapErr | .unwrapOr
  | .unwrapOrElse | .unwrapOrElseSync | .clear
  | .map | .mapSync | .mapOr | .mapOrSync | .mapOrElse | .mapOrElseSync
  | .andOp | .andThen | .andThenSync => true
  | _ => false

/-! ### The full synchronous combinator surface (for the totality claim)

One operation per method of the current `Result` pair
(`src/mods/result/ok/mod.ts` + `src/mods/result/err/mod.ts`) and of the
current `Option` pair (`src/mods/option/some/mod.ts` +
`src/mods/option/none/mod.ts`).  The suspending forms differ from their
`*Sync` twins only in promise wrapping and are represented by the latter;
caller-supplied mappers and callbacks are total Lean functions, which is the
claim's proviso that they do not themselves raise.  `flatten` is
type-heterogeneous and embedded separately as `Result.flatten`.  `Err.throw`
additionally records into the enclosing slot (modelled in `Err.throw`
above); only its raising behavior is represented here. -/

/-- The error object thrown by `None.get`/`None.getOrThrow` and wrapped by
`None.ok` (`class NoneError extends Error`). -/
inductive NoneError where
  | mk
deriving DecidableEq, Repr

/-- A payload thrown by a `Result` method: a fresh `new Error()`
(`Ok.getErr` / `Err.get`), the raw inner value (`getOrThrow` /
`getErrOrThrow` / `checkOrThrow` / `checkErrOrThrow` on the non-matching
tag), or the `Err` instance itself (`Err.throw`). -/
inductive RaisedR (α ε : Type) where
  | errorObj
  | rawOk (a : α)
  | rawErr (e : ε)
  | selfErr (e : ε)
deriving DecidableEq, Repr

/-- A return value of a synchronous `Result` method. -/
inductive RRet (α ε : Type) where
  | bool (b : Bool)
  | val (a : α)
  | errVal (e : ε)
  | res (r : Result α ε)
  | resClear (r : Result Unit ε)
  | resClearErr (r : Result α Unit)
  | opt (o : Opt α)
  | optErr (o : Opt ε)
  | pair (x : Option α) (y : Option ε)
  | nullish
  | yields (l : List α)
deriving DecidableEq, Repr

/-- The synchronous methods of `ok/mod.ts` + `err/mod.ts`, with their
caller-supplied arguments. -/
inductive ROp (α ε : Type) where
  | isOk | isErr
  | isOkAndSync (p : α → Bool)
  | isErrAndSync (q : ε → Bool)
  | get | getErr | getAny
  | okConv | errConv
  | iter | split
  | contains (a : α)
  | containsErr (e : ε)
  | throwOp
  | getOrThrow | getErrOrThrow | getOrNull | getErrOrNull
  | getOr (v : α)
  | getOrElseSync (f : ε → α)
  | checkOrThrow | checkErrOrThrow | checkOrNull | checkErrOrNull
  | clear | clearErr
  | inspectSync (cb : α → Unit)
  | inspectErrSync (cb : ε → Unit)
  | set (b : α)
  | setErr (e : ε)
  | mapSync (f : α → α)
  | mapErrSync (g : ε → ε)
  | mapOrSync (v : α) (f : α → α)
  | mapOrElseSync (g : ε → α) (f : α → α)
  | andOp (r : Result α ε)
  | andThenSync (f : α → Result α ε)
  | orOp (r : Result α ε)
  | orElseSync (g : ε → Result α ε)

/-- Evaluate one synchronous `Result` method: each arm translates the
corresponding method body of `Ok` (ok/mod.ts) or `Err` (err/mod.ts);
`Except.error` marks a `throw` statement. -/
def ROp.apply [BEq α] [BEq ε] : ROp α ε → Result α ε → Except (RaisedR α ε) (RRet α ε)
  | .isOk, .Ok _ => .ok (.bool true)
  | .isOk, .Err _ => .ok (.bool false)
  | .isErr, .Ok _ => .ok (.bool false)
  | .isErr, .Err _ => .ok (.bool true)
  | .isOkAndSync p, .Ok v => .ok (.bool (p v))
  | .isOkAndSync _, .Err _ => .ok (.bool false)
  | .isErrAndSync _, .Ok _ => .ok (.bool false)
  | .isErrAndSync q, .Err e => .ok (.bool (q e))
  | .get, .Ok v => .ok (.val v)
  | .get, .Err _ => .error .errorObj
  | .getErr, .Ok _ => .error .errorObj
  | .getErr, .Err e => .ok (.errVal e)
  | .getAny, .Ok v => .ok (.val v)
  | .getAny, .Err e => .ok (.errVal e)
  | .okConv, .Ok v => .ok (.opt (.Some v))
  | .okConv, .Err _ => .ok (.opt .None)
  | .errConv, .Ok _ => .ok (.optErr .None)
  | .errConv, .Err e => .ok (.optErr (.Some e))
  | .iter, .Ok v => .ok (.yields [v])
  | .iter, .Err _ => .ok (.yields [])
  | .split, .Ok v => .ok (.pair (some v) none)
  | .split, .Err e => .ok (.pair none (some e))
  | .contains a, .Ok v => .ok (.bool (v == a))
  | .contains _, .Err _ => .ok (.bool false)
  | .containsErr _, .Ok _ => .ok (.bool false)
  | .containsErr e', .Err e => .ok (.bool (e == e'))
  | .throwOp, .Ok v => .ok (.val v)
  | .throwOp, .Err e => .error (.selfErr e)
  | .getOrThrow, .Ok v => .ok (.val v)
  | .getOrThrow, .Err e => .error (.rawErr e)
  | .getErrOrThrow, .Ok v => .error (.rawOk v)
  | .getErrOrThrow, .Err e => .ok (.errVal e)
  | .getOrNull, .Ok v => .ok (.val v)
  | .getOrNull, .Err _ => .ok .nullish
  | .getErrOrNull, .Ok _ => .ok .nullish
  | .getErrOrNull, .Err e => .ok (.errVal e)
  | .getOr _, .Ok v => .ok (.val v)
  | .getOr d, .Err _ => .ok (.val d)
  | .getOrElseSync _, .Ok v => .ok (.val v)
  | .getOrElseSync f, .Err e => .ok (.val (f e))
  | .checkOrThrow, .Ok v => .ok (.res (.Ok v))
  | .checkOrThrow, .Err e => .error (.rawErr e)
  | .checkErrOrThrow, .Ok v => .error (.rawOk v)
  | .checkErrOrThrow, .Err e => .ok (.res (.Err e))
  | .checkOrNull, .Ok v => .ok (.res (.Ok v))
  | .checkOrNull, .Err _ => .ok .nullish
  | .checkErrOrNull, .Ok _ => .ok .nullish
  | .checkErrOrNull, .Err e => .ok (.res (.Err e))
  | .clear, .Ok _ => .ok (.resClear (.Ok ()))
  | .clear, .Err e => .ok (.resClear (.Err e))
  | .clearErr, .Ok v => .ok (.resClearErr (.Ok v))
  | .clearErr, .Err _ => .ok (.resClearErr (.Err ()))
  | .inspectSync cb, .Ok v => .ok (let _ := cb v; .res (.Ok v))
  | .inspectSync _, .Err e => .ok (.res (.Err e))
  | .inspectErrSync _, .Ok v => .ok (.res (.Ok v))
  | .inspectErrSync cb, .Err e => .ok (let _ := cb e; .res (.Err e))
  | .set b, .Ok _ => .ok (.res (.Ok b))
  | .set _, .Err e => .ok (.res (.Err e))
  | .setErr _, .Ok v => .ok (.res (.Ok v))
  | .setErr e', .Err _ => .ok (.res (.Err e'))
  | .mapSync f, .Ok v => .ok (.res (.Ok (f v)))
  | .mapSync _, .Err e => .ok (.res (.Err e))
  | .mapErrSync _, .Ok v => .ok (.res (.Ok v))
  | .mapErrSync g, .Err e => .ok (.res (.Err (g e)))
  | .mapOrSync _ f, .Ok v => .ok (.val (f v))
  | .mapOrSync d _, .Err _ => .ok (.val d)
  | .mapOrElseSync _ f, .Ok v => .ok (.val (f v))
  | .mapOrElseSync g _, .Err e => .ok (.val (g e))
  | .andOp r, .Ok _ => .ok (.res r)
  | .andOp _, .Err e => .ok (.res (.Err e))
  | .andThenSync f, .Ok v => .ok (.res (f v))
  | .andThenSync _, .Err e => .ok (.res (.Err e))
  | .orOp _, .Ok v => .ok (.res (.Ok v))
  | .orOp r, .Err _ => .ok (.res r)
  | .orElseSync _, .Ok v => .ok (.res (.Ok v))
  | .orElseSync g, .Err e => .ok (.res (g e))

/-- Embeds `Ok.flatten` (`return this.inner`) and `Err.flatten`
(`return this`): total on both variants, never raises. -/
def Result.flatten : Result (Result α ε) ε → Result α ε
  | .Ok r => r
  | .Err e => .Err e

/-- The get/unwrap-family operations that demand the `Ok` value: they raise
exactly on `Err`. -/
def ROp.wantsOk : ROp α ε → Bool
  | .get | .getOrThrow | .checkOrThrow | .throwOp => true
  | _ => false

/-- The get/unwrap-family operations that demand the `Err` value: they raise
exactly on `Ok`. -/
def ROp.wantsErr : ROp α ε → Bool
  | .getErr | .getErrOrThrow | .checkErrOrThrow => true
  | _ => false

/-- A return value of a synchronous `Option` method. -/
inductive ORet (α ε : Type) where
  | bool (b : Bool)
  | val (a : α)
  | opt (o : Opt α)
  | optPair (o : Opt (α × α))
  | res (r : Result α ε)
  | resNone (r : Result α NoneError)
  | nullish
  | yields (l : List α)
deriving DecidableEq, Repr

/-- The synchronous methods of `some/mod.ts` + `none/mod.ts`, with their
caller-supplied arguments.  `None`'s callbacks take no argument; they are
modelled as functions from `Unit`. -/
inductive OOp (α ε : Type) where
  | isSome | isNone
  | isSomeAndSync (p : α → Bool)
  | get | getOrThrow | getOrNull
  | getOr (v : α)
  | getOrElseSync (f : Unit → α)
  | okConv
  | okOr (e : ε)
  | okOrElseSync (f : Unit → ε)
  | filterSync (p : α → Bool)
  | contains (a : α)
  | inspectSync (cb : α → Unit)
  | mapSync (f : α → α)
  | mapOrSync (v : α) (f : α → α)
  | mapOrElseSync (g : Unit → α) (f : α → α)
  | andOp (o : Opt α)
  | andThenSync (f : α → Opt α)
  | orOp (o : Opt α)
  | orElseSync (g : Unit → Opt α)
  | xor (o : Opt α)
  | zip (o : Opt α)
  | iter

/-- Evaluate one synchronous `Option` method: each arm translates the
corresponding method body of `Some` (some/mod.ts) or `None` (none/mod.ts);
`Except.error` marks a thrown `NoneError`. -/
def OOp.apply [BEq α] : OOp α ε → Opt α → Except NoneError (ORet α ε)
  | .isSome, .Some _ => .ok (.bool true)
  | .isSome, .None => .ok (.bool false)
  | .isNone, .Some _ => .ok (.bool false)
  | .isNone, .None => .ok (.bool true)
  | .isSomeAndSync p, .Some v => .ok (.bool (p v))
  | .isSomeAndSync _, .None => .ok (.bool false)
  | .get, .Some v => .ok (.val v)
  | .get, .None => .error .mk
  | .getOrThrow, .Some v => .ok (.val v)
  | .getOrThrow, .None => .error .mk
  | .getOrNull, .Some v => .ok (.val v)
  | .getOrNull, .None => .ok .nullish
  | .getOr _, .Some v => .ok (.val v)
  | .getOr d, .None => .ok (.val d)
  | .getOrElseSync _, .Some v => .ok (.val v)
  | .getOrElseSync f, .None => .ok (.val (f ()))
  | .okConv, .Some v => .ok (.resNone (.Ok v))
  | .okConv, .None => .ok (.resNone (.Err .mk))
  | .okOr _, .Some v => .ok (.res (.Ok v))
  | .okOr e, .None => .ok (.res (.Err e))
  | .okOrElseSync _, .Some v => .ok (.res (.Ok v))
  | .okOrElseSync f, .None => .ok (.res (.Err (f ())))
  | .filterSync p, .Some v => .ok (.opt (if p v then .Some v else .None))
  | .filterSync _, .None => .ok (.opt .None)
  | .contains a, .Some v => .ok (.bool (v == a))
  | .contains _, .None => .ok (.bool false)
  | .inspectSync cb, .Some v => .ok (let _ := cb v; .opt (.Some v))
  | .inspectSync _, .None => .ok (.opt .None)
  | .mapSync f, .Some v => .ok (.opt (.Some (f v)))
  | .mapSync _, .None => .ok (.opt .None)
  | .mapOrSync _ f, .Some v => .ok (.val (f v))
  | .mapOrSync d _, .None => .ok (.val d)
  | .mapOrElseSync _ f, .Some v => .ok (.val (f v))
  | .mapOrElseSync g _, .None => .ok (.val (g ()))
  | .andOp o, .Some _ => .ok (.opt o)
  | .andOp _, .None => .ok (.opt .None)
  | .andThenSync f, .Some v => .ok (.opt (f v))
  | .andThenSync _, .None => .ok (.opt .None)
  | .orOp _, .Some v => .ok (.opt (.Some v))
  | .orOp o, .None => .ok (.opt o)
  | .orElseSync _, .Some v => .ok (.opt (.Some v))
  | .orElseSync g, .None => .ok (.opt (g ()))
  | .xor o, .Some v => .ok (.opt (if o.isSome then .None else .Some v))
  | .xor o, .None => .ok (.opt o)
  | .zip o, .Some v =>
    .ok (.optPair (match o with | .Some w => .Some (v, w) | .None => .None))
  | .zip _, .None => .ok (.optPair .None)
  | .iter, .Some v => .ok (.yields [v])
  | .iter, .None => .ok (.yields [])

/-- The get/unwrap-family operations of `Option` that demand the `Some`
value: they raise exactly on `None`. -/
def OOp.wantsSome : OOp α ε → Bool
  | .get | .getOrThrow => true
  | _ => false

/-- Whether an outcome is a raised exception. -/
def raises : Except ξ ρ → Bool
  | .error _ => true
  | .ok _ => false

/-! ### Theorems -/

section Theorems

variable {α β ε η ξ : Type}

/-- On an all-`Ok` source the generator yields every inner value in order,
terminates with `Ok.void()` and leaves nothing unconsumed. -/
theorem iterate_all_ok (l : List (Result α ε)) (h : ∀ r ∈ l, r.isOk = true) :
    Result.iterate l = (l.filterMap Result.get?, Result.Ok (), []) := by
  induction l with
  | nil => rfl
  | cons r rest ih =>
    cases r with
    | Ok v =>
      have := ih (fun r hr => h r (List.mem_cons_of_mem _ hr))
      simp [Result.iterate, Result.get?, this]
    | Err e =>
      have := h (.Err e) (List.mem_cons_self _ _)
      simp [Result.isOk] at this

/-- When the source is an all-`Ok` prefix followed by an `Err`, the generator
yields exactly the prefix's inner values, terminates with that `Err`, and
never consumes any element past it. -/
theorem iterate_first_err (l₁ l₂ : List (Result α ε)) (e : ε)
    (h : ∀ r ∈ l₁, r.isOk = true) :
    Result.iterate (l₁ ++ .Err e :: l₂) = (l₁.filterMap Result.get?, Result.Err e, l₂) := by
  induction l₁ with
  | nil => rfl
  | cons r rest ih =>
    cases r with
    | Ok v =>
      have := ih (fun r hr => h r (List.mem_cons_of_mem _ hr))
      simp [Result.iterate, Result.get?, this]
    | Err e' =>
      have := h (.Err e') (List.mem_cons_self _ _)
      simp [Result.isOk] at this

/-- C1: `Result.all` returns `Ok` of the array of all inner values in source
order when every element is `Ok`; when the source decomposes as an all-`Ok`
prefix followed by the first `Err`, it returns that `Err`, and the generator
feeding `collect` never consumes any source element after that `Err` (the
unconsumed suffix computed by `iterate` is exactly the remainder of the
source). -/
theorem all_short_circuit (l l₁ l₂ : List (Result α ε)) (e : ε) :
    ((∀ r ∈ l, r.isOk = true) → Result.all l = .Ok (l.filterMap Result.get?))
    ∧ (l = l₁ ++ .Err e :: l₂ → (∀ r ∈ l₁, r.isOk = true) →
        Result.all l = .Err e ∧ (Result.iterate l).2.2 = l₂) := by
  constructor
  · intro h
    simp [Result.all, Result.collect, iterate_all_ok l h, Result.set]
  · intro hdec h
    subst hdec
    simp [Result.all, Result.collect, iterate_first_err l₁ l₂ e h, Result.set]

/-- Witness for C1 at the spec's concrete inputs:
`Result.all([Ok(1), Ok(2), Ok(3)]) = Ok([1,2,3])`,
`Result.all([Ok(1), Err("x"), Ok(3)]) = Err("x")`, and the third element is
never consumed by the generator. -/
theorem all_short_circuit_witness :
    Result.all [Result.Ok 1, Result.Ok 2, Result.Ok (3 : Nat)] = Result.Ok (ε := String) [1, 2, 3]
    ∧ Result.all [Result.Ok 1, Result.Err "x", Result.Ok (3 : Nat)] = Result.Err "x"
    ∧ (Result.iterate [Result.Ok 1, Result.Err "x", Result.Ok (3 : Nat)]).2.2 = [Result.Ok 3] := by
  refine ⟨?_, ?_, ?_⟩
  · exact (all_short_circuit [Result.Ok 1, Result.Ok 2, Result.Ok 3] [] [] "x").1 (by decide)
  · exact ((all_short_circuit _ [Result.Ok 1] [Result.Ok 3] "x").2 rfl (by decide)).1
  · exact ((all_short_circuit _ [Result.Ok 1] [Result.Ok 3] "x").2 rfl (by decide)).2

/-- C5: the Result/Option conversions respect the `Ok`→`Some`,
`Err`/`None`→absence duality exactly, carrying the inner value over
unchanged in each non-empty case: `Ok(x).ok() = Some(x)`,
`Ok(x).err() = None`, `Err(e).ok() = None`, `Err(e).err() = Some(e)`,
`Some(x).okOr(e) = Ok(x)`, `None().okOr(e) = Err(e)`. -/
theorem result_option_duality (x : α) (e : ε) :
    (Result.Ok x : Result α ε).ok = .Some x
    ∧ (Result.Ok x : Result α ε).err = .None
    ∧ (Result.Err e : Result α ε).ok = .None
    ∧ (Result.Err e : Result α ε).err = .Some e
    ∧ (Opt.Some x).okOr e = .Ok x
    ∧ (Opt.None : Opt α).okOr e = .Err e :=
  ⟨rfl, rfl, rfl, rfl, rfl, rfl⟩

/-- C10: `Option.wrap` returns `None` for `null` as well as for `undefined`
(the check is a loose equality against null), and returns `Some(x)` for
every other value — in particular the falsy values `0`, `""`, `NaN` and
`false` are wrapped in `Some`. -/
theorem wrap_null_undefined (v : JSVal) :
    Opt.wrap .null = .None
    ∧ Opt.wrap .undefined = .None
    ∧ (v ≠ .null → v ≠ .undefined → Opt.wrap v = .Some v)
    ∧ Opt.wrap (.num 0) = .Some (.num 0)
    ∧ Opt.wrap (.str "") = .Some (.str "")
    ∧ Opt.wrap .nan = .Some .nan
    ∧ Opt.wrap (.boolean false) = .Some (.boolean false) := by
  refine ⟨rfl, rfl, ?_, rfl, rfl, rfl, rfl⟩
  intro h1 h2
  cases v <;> simp_all [Opt.wrap, JSVal.looseEqNull]

/-- Witness for C10 at a concrete non-nullish falsy value. -/
theorem wrap_null_undefined_witness :
    JSVal.boolean false ≠ JSVal.null
    ∧ JSVal.boolean false ≠ JSVal.undefined
    ∧ Opt.wrap (.boolean false) = .Some (.boolean false) :=
  ⟨by decide, by decide,
    (wrap_null_undefined (.boolean false)).2.2.1 (by decide) (by decide)⟩

/-- C8: for every Result and every non-suspending mapper, the suspending
form of each asynchronous-capable operation resolves to the same value as
its `*Sync` form: `map`/`mapSync`, `andThen`/`andThenSync`,
`orElse`/`orElseSync` and `getOrElse`/`getOrElseSync` agree on both tags. -/
theorem sync_async_agree (r : Result α ε) (f : α → β)
    (g : α → Result β ε) (h : ε → Result α ε) (k : ε → α) :
    (r.map fun x => Prom.now (f x)).await = r.mapSync f
    ∧ (r.andThen fun x => Prom.now (g x)).await = r.andThenSync g
    ∧ (r.orElse fun e => Prom.now (h e)).await = r.orElseSync h
    ∧ (r.getOrElse fun e => Prom.now (k e)).await = r.getOrElseSync k := by
  cases r <;>
    simp [Result.map, Result.mapSync, Result.andThen, Result.andThenSync,
      Result.orElse, Result.orElseSync, Result.getOrElse, Result.getOrElseSync,
      Prom.await]

/-- C2: for every callback, `unthrow`/`unthrowSync` return the callback's
value unchanged when it returns normally; when it raises and this
invocation's slot was populated by its own thrower, they return the recorded
`Err`; and when it raises with the slot never populated, they re-raise the
caught signal unchanged rather than swallowing or converting it. -/
theorem unthrow_spec (cb : Option ε → Except ξ (Result α ε) × Option ε)
    (out : Except ξ (Result α ε)) (ref : Option ε) (hout : cb none = (out, ref)) :
    (∀ r, out = .ok r →
      Result.unthrowSync cb = .ok r ∧ Result.unthrow cb = .later (.ok r))
    ∧ (∀ x e, out = .error x → ref = some e →
      Result.unthrowSync cb = .ok (.Err e)
        ∧ Result.unthrow cb = .later (.ok (.Err e)))
    ∧ (∀ x, out = .error x → ref = none →
      Result.unthrowSync cb = .error x ∧ Result.unthrow cb = .later (.error x)) := by
  refine ⟨?_, ?_, ?_⟩
  · intro r h
    subst h
    exact ⟨by simp [Result.unthrowSync, hout], by simp [Result.unthrow, hout]⟩
  · intro x e h h'
    subst h
    subst h'
    exact ⟨by simp [Result.unthrowSync, hout], by simp [Result.unthrow, hout]⟩
  · intro x h h'
    subst h
    subst h'
    exact ⟨by simp [Result.unthrowSync, hout], by simp [Result.unthrow, hout]⟩

/-- Witness for C2: a callback that raises `7` after its thrower recorded the
`Err("boom")` makes `unthrowSync` return that `Err`; one that raises without
recording re-raises; one that returns normally is passed through. -/
theorem unthrow_spec_witness :
    Result.unthrowSync (fun _ => (Except.error (7 : Nat), some "boom"))
      = (Except.ok (Result.Err "boom") : Except Nat (Result Nat String))
    ∧ Result.unthrowSync (fun _ => (Except.error (7 : Nat), (none : Option String)))
      = (Except.error 7 : Except Nat (Result Nat String))
    ∧ Result.unthrowSync (fun _ => (Except.ok (Result.Ok (5 : Nat)), (none : Option String)))
      = (Except.ok (Result.Ok 5) : Except Nat (Result Nat String)) := by
  refine ⟨?_, ?_, ?_⟩
  · exact ((unthrow_spec (fun _ => (Except.error (7 : Nat), some "boom"))
      (Except.error 7) (some "boom") rfl).2.1 7 "boom" rfl rfl).1
  · exact ((unthrow_spec (fun _ => (Except.error (7 : Nat), (none : Option String)))
      (Except.error 7) none rfl).2.2 7 rfl rfl).1
  · exact ((unthrow_spec (fun _ => (Except.ok (Result.Ok (5 : Nat)), (none : Option String)))
      (Except.ok (Result.Ok 5)) none rfl).1 (Result.Ok 5) rfl).1

/-- Counterexample for C3 as stated: in the historical `Err.throw` of
`src/unnamed/part_002`, the raised payload is a fresh
`Panic("Thrown result was try-catched")`, not the `Err` instance itself. -/
theorem err_throw_payload_counterexample :
    (Err.throwPart002 (⟨0, Result.Err "boom"⟩ : RInst Nat String)
        (fun i _ => some i) (none : Option (RInst Nat String))).2
      = Raised.panic "Thrown result was try-catched"
    ∧ Raised.panic (α := Nat) (ε := String) "Thrown result was try-catched"
      ≠ Raised.instRes ⟨0, Result.Err "boom"⟩ :=
  ⟨rfl, by decide⟩

/-- C3 (amended): in both versions of `Err.throw`, the call first passes the
`Err` instance itself (not its inner value) to the thrower — in particular
`unthrow`'s recording thrower stores the instance itself in the slot — and
then unconditionally raises, never returning normally (the return type has
no normal-return component).  In `err/mod.ts` the raised payload is that
same `Err` instance; in the historical `part_002` variant the payload is a
fresh `Panic("Thrown result was try-catched")` instead. -/
theorem err_throw_spec {σT : Type} (i : RInst α ε)
    (thrower : RInst α ε → σT → σT) (s : σT) :
    Err.throw i thrower s = (thrower i s, Raised.instRes i)
    ∧ Err.throwPart002 i thrower s
      = (thrower i s, Raised.panic "Thrown result was try-catched")
    ∧ Err.throw i (fun j _ => some j) (none : Option (RInst α ε))
      = (some i, Raised.instRes i) :=
  ⟨rfl, rfl, rfl⟩

/-- C4: `Ok(x).map(f).get()`/`Ok(x).mapSync(f).get()` equal `f(x)` (map on
`Ok` wraps the mapper's output in a fresh `Ok`), while `Err(e).map(f)` and
`Err(e).mapSync(f)` return the very same `Err` instance — same allocation
id, no new allocation. -/
theorem map_ok_err_noop (x : α) (f : α → β) (g : α → α)
    (i : RInst α ε) (e : ε) (σ : Nat) (hv : i.val = .Err e) :
    ((Result.Ok x : Result α ε).mapSync f).get? = some (f x)
    ∧ ((Result.Ok x : Result α ε).map fun a => Prom.now (f a)).await.get? = some (f x)
    ∧ RInst.mapSync i g σ = (i, σ)
    ∧ RInst.map i (fun a => Prom.now (g a)) σ = (.now i, σ) := by
  obtain ⟨idv, val⟩ := i
  simp only [RInst.mk.injEq] at hv
  subst hv
  exact ⟨rfl, rfl, rfl, rfl⟩

/-- Witness for C4 at `Ok(2)`, `f = (· + 1)` and the `Err("x")` instance with
allocation id 5. -/
theorem map_ok_err_noop_witness :
    ((Result.Ok 2 : Result Nat String).mapSync (· + 1)).get? = some 3
    ∧ RInst.mapSync (⟨5, Result.Err "x"⟩ : RInst Nat String) (· + 1) 9
      = (⟨5, Result.Err "x"⟩, 9) := by
  refine ⟨?_, ?_⟩
  · exact (map_ok_err_noop 2 (· + 1) (· + 1) ⟨5, Result.Err "x"⟩ "x" 9 rfl).1
  · exact (map_ok_err_noop 2 (· + 1) (· + 1) ⟨5, Result.Err "x"⟩ "x" 9 rfl).2.2.1

/-- C6: across the synchronous combinator surface of `Result` and `Option`,
an operation raises exactly when it is a get/unwrap-family operation applied
to the non-matching tag; every other operation is total on both variants
(caller-supplied mappers and callbacks are total functions, which is the
claim's proviso that they do not themselves raise). -/
theorem only_get_family_raises [BEq α] [BEq ε] (op : ROp α ε) (r : Result α ε)
    (oop : OOp α ε) (o : Opt α) :
    (raises (op.apply r) = true ↔
      (op.wantsOk = true ∧ r.isErr = true) ∨ (op.wantsErr = true ∧ r.isOk = true))
    ∧ (raises (OOp.apply (ε := ε) oop o) = true ↔
      oop.wantsSome = true ∧ o.isSome = false) := by
  constructor
  · cases op <;> cases r <;>
      simp [ROp.apply, ROp.wantsOk, ROp.wantsErr, raises, Result.isOk, Result.isErr]
  · cases oop <;> cases o <;>
      simp [OOp.apply, OOp.wantsSome, raises, Opt.isSome]

/-- Counterexample for C7 as stated: `inspectSync` is in the claim's
acknowledged set (`get`, `unwrap`, `ok`, `err`, `map`, `inspect`, etc.), yet
its body in ok.ts never runs `this.ignore()` — after `inspectSync` on a
debug-mode `Ok` the scheduled `Unhandled` diagnostic is still pending. -/
theorem leak_inspect_counterexample :
    LOp.acknowledged .inspectSync = true
    ∧ (OkL.step .inspectSync (OkL.make true (0 : Nat))).pending = true :=
  ⟨rfl, rfl⟩

/-- C7 (amended): under the debug flag, exactly the operations whose body
runs `this.ignore()` — get, throw, expect/expectErr, the unwrap family, ok,
err, iteration, split, clear, the map/mapOr/mapOrElse families, and,
andThen — cancel the instance's pending diagnostic; `ignore()` right after
construction cancels it without consuming the inner value; and no operation
ever re-arms a cancelled timer, so after any cancelling call the scheduled
`Unhandled` failure can never fire.  `inspect`/`inspectSync`, despite
acknowledging the tag, leave the diagnostic pending. -/
theorem leak_cancel_spec (op : LOp) (o : OkL α) (a : α) (hc : op.cancels = true) :
    (OkL.step op o).pending = false
    ∧ ((OkL.make true a).ignore).pending = false
    ∧ ((OkL.make true a).ignore).inner = a
    ∧ (∀ op' : LOp, ∀ o' : OkL α, (OkL.step op' o').pending = true → o'.pending = true)
    ∧ (OkL.step .inspectSync o).pending = o.pending := by
  refine ⟨?_, rfl, rfl, ?_, rfl⟩
  · cases op <;> first | rfl | simp [LOp.cancels] at hc
  · intro op' o' h
    cases op' <;> simp_all [OkL.step, OkL.ignore]

/-- Witness for C7 (amended): `get` on a freshly constructed debug-mode `Ok`
cancels the pending diagnostic. -/
theorem leak_cancel_spec_witness :
    LOp.cancels .get = true
    ∧ (OkL.step .get (OkL.make true (0 : Nat))).pending = false :=
  ⟨rfl, (leak_cancel_spec .get (OkL.make true 0) 0 rfl).1⟩

/-- C9: variant instances are immutable after construction — every
enumerated operation either returns the receiver itself (same allocation id,
same tag, same inner value) or a freshly allocated instance whose id is the
current counter value and hence distinct from the receiver's; operations
that produce a different value (map on the matching tag, set, setErr, clear
on the matching tag, the conversions) always allocate. -/
theorem instance_immutability (i : RInst α ε) (j : OInst α) (σ : Nat)
    (f : α → α) (g : ε → ε) (b : α) (e' : ε) (p : α → Bool) (eo : ε)
    (hi : i.id < σ) (hj : j.id < σ) :
    i.id ≠ σ ∧ j.id ≠ σ
    ∧ (∀ v, i.val = .Ok v → RInst.mapSync i f σ = (⟨σ, .Ok (f v)⟩, σ + 1))
    ∧ (∀ e, i.val = .Err e → RInst.mapSync i f σ = (i, σ))
    ∧ (∀ v, i.val = .Ok v → RInst.mapErrSync i g σ = (i, σ))
    ∧ (∀ e, i.val = .Err e → RInst.mapErrSync i g σ = (⟨σ, .Err (g e)⟩, σ + 1))
    ∧ (∀ v, i.val = .Ok v → RInst.set i b σ = (⟨σ, .Ok b⟩, σ + 1))
    ∧ (∀ e, i.val = .Err e → RInst.set i b σ = (i, σ))
    ∧ (∀ v, i.val = .Ok v → RInst.setErr i e' σ = (i, σ))
    ∧ (∀ e, i.val = .Err e → RInst.setErr i e' σ = (⟨σ, .Err e'⟩, σ + 1))
    ∧ (∀ v, i.val = .Ok v → RInst.clear i σ = (⟨σ, .Ok ()⟩, σ + 1))
    ∧ (∀ e, i.val = .Err e → RInst.clear i σ = (⟨i.id, .Err e⟩, σ))
    ∧ (∀ v, i.val = .Ok v → RInst.clearErr i σ = (⟨i.id, .Ok v⟩, σ))
    ∧ (∀ e, i.val = .Err e → RInst.clearErr i σ = (⟨σ, .Err ()⟩, σ + 1))
    ∧ ((RInst.okConv i σ).1.id = σ ∧ (RInst.okConv i σ).2 = σ + 1)
    ∧ ((RInst.errConv i σ).1.id = σ ∧ (RInst.errConv i σ).2 = σ + 1)
    ∧ (∀ v, j.val = .Some v → OInst.mapSync j f σ = (⟨σ, .Some (f v)⟩, σ + 1))
    ∧ (j.val = .None → OInst.mapSync j f σ = (j, σ))
    ∧ (∀ v, j.val = .Some v → p v = true → OInst.filterSync j p σ = (j, σ))
    ∧ (∀ v, j.val = .Some v → p v = false →
        OInst.filterSync j p σ = (⟨σ, .None⟩, σ + 1))
    ∧ (j.val = .None → OInst.filterSync j p σ = (j, σ))
    ∧ ((OInst.okOr j eo σ).1.id = σ ∧ (OInst.okOr j eo σ).2 = σ + 1) := by
  obtain ⟨idi, vi⟩ := i
  obtain ⟨idj, vj⟩ := j
  simp only at hi hj
  refine ⟨Nat.ne_of_lt hi, Nat.ne_of_lt hj, ?_⟩
  cases vi <;> cases vj <;>
    simp_all [RInst.mapSync, RInst.mapErrSync, RInst.set, RInst.setErr,
      RInst.clear, RInst.clearErr, RInst.okConv, RInst.errConv,
      OInst.mapSync, OInst.filterSync, OInst.okOr, allocR, allocO]

/-- Witness for C9: mapping a concrete `Ok` instance (id 0) and a concrete
`Some` instance (id 1) at counter 2 allocates fresh instances with id 2. -/
theorem instance_immutability_witness :
    RInst.mapSync (⟨0, Result.Ok 1⟩ : RInst Nat String) (· + 1) 2
      = (⟨2, Result.Ok 2⟩, 3)
    ∧ OInst.mapSync (⟨1, Opt.Some 1⟩ : OInst Nat) (· + 1) 2
      = (⟨2, Opt.Some 2⟩, 3) := by
  obtain ⟨-, -, c3, -, -, -, -, -, -, -, -, -, -, -, -, -, c17, -⟩ :=
    instance_immutability (⟨0, Result.Ok 1⟩ : RInst Nat String)
      (⟨1, Opt.Some 1⟩ : OInst Nat) 2 (· + 1) id 0 "" (fun _ => true) ""
      (by decide) (by decide)
  exact ⟨c3 1 rfl, c17 1 rfl⟩

end Theorems

end HazaeResult
